import Mathlib

/-!
Verification of the semantic-retrieval core of `src/pinecone_utils.py`
(functions `gerar_embedding`, `processar_e_indexar_documento`,
`buscar_documentos`, `listar_todos_documentos`).

The Python code talks to two external services (the Gemini embedding API via
`genai.embed_content`, and the Pinecone vector store via
`inicializar_pinecone` / `index.describe_index_stats` / `index.query` /
`index.upsert`).  We embed those as oracles collected in a `World` record;
each embedded operation returns its result together with the list of external
calls it issued, so that properties of the form "does not contact any external
service" and "the request carried these exact fields" are statable.

Python exceptions are embedded as the inductive `PyErr`: the code
distinguishes `ValueError` and `ConnectionError` by type in its handlers,
and everything else falls into the generic `otherError` constructor.
Duck-typed metadata dictionaries are embedded as association lists of
`String × Val`, with Python truthiness made explicit (`Val.truthy`).
-/

set_option maxRecDepth 100000

deriving instance DecidableEq for Except

namespace ProjetoIA

/-- A metadata value: the indexed documents store strings and lists of
strings (`valores_monetarios`, `cpfs`, `nomes`). -/
inductive Val where
  | str (s : String)
  | strList (l : List String)
deriving DecidableEq, Repr

/-- Python truthiness of a metadata value: empty string and empty list are
falsy. -/
def Val.truthy : Val → Bool
  | .str s => !s.isEmpty
  | .strList l => !l.isEmpty

/-- A metadata dictionary, as an association list. -/
abbrev Metadata := List (String × Val)

/-- Python `d.get(k)`: first binding of `k`, if any. -/
def mdGet (m : Metadata) (k : String) : Option Val :=
  (m.find? (fun p => p.1 == k)).map (fun p => p.2)

/-- Python `d.get(k, default)`. -/
def mdGetD (m : Metadata) (k : String) (d : Val) : Val :=
  (mdGet m k).getD d

/-- The `score` attribute of a raw match: either a number, or a value on
which Python `float()` raises. -/
inductive Score where
  | num (q : ℚ)
  | nonNumeric
deriving DecidableEq, Repr

/-- A raw match object returned by the vector store.  `none` fields embed
both a missing attribute and a `None` value (either way, attribute access
or `.get` on it raises, and `hasattr` reports absence the same way the code
treats falsy values). -/
structure RawMatch where
  id : Option String
  score : Option Score
  metadata : Option Metadata
deriving DecidableEq, Repr

/-- The request the code hands to `genai.embed_content`. -/
structure EmbedRequest where
  model : String
  content : List String
  task_type : String
deriving DecidableEq, Repr

/-- The response object of `genai.embed_content`: the code reads
`response['embedding'][0]`, so we keep the `'embedding'` entry (possibly
absent) as a list of vectors. -/
structure EmbedResp where
  embedding : Option (List (List ℚ))
deriving DecidableEq, Repr

/-- The request the code hands to `index.query`. -/
structure QueryRequest where
  vector : List ℚ
  top_k : Nat
  include_metadata : Bool
deriving DecidableEq, Repr

/-- The response object of `index.query`, as the defensive code at lines
172-174 sees it: a falsy object, an object without a `matches` attribute,
an object whose `matches` is a list of raw matches, or an object whose
truthy `matches` attribute fails to iterate as a list. -/
inductive QueryResp where
  | nil
  | noMatchesAttr
  | withMatches (ms : List RawMatch)
  | badMatches
deriving DecidableEq, Repr

/-- Python exceptions, by how the handlers in `buscar_documentos`
discriminate them: `ValueError`, `ConnectionError`, and every other
exception type. -/
inductive PyErr where
  | valueError (msg : String)
  | connectionError (msg : String)
  | otherError (msg : String)
deriving DecidableEq, Repr

/-- Python `str(e)`. -/
def PyErr.msg : PyErr → String
  | .valueError m => m
  | .connectionError m => m
  | .otherError m => m

/-- The single vector record handed to `index.upsert`. -/
structure UpsertRequest where
  id : String
  vector : List ℚ
  metadata : Metadata
deriving DecidableEq, Repr

/-- One external call issued by the embedded code. -/
inductive Call where
  | embedCall (r : EmbedRequest)
  | initCall
  | statsCall
  | queryCall (r : QueryRequest)
  | upsertCall (r : UpsertRequest)
deriving DecidableEq, Repr

/-- The index handle returned by `inicializar_pinecone`: the code at line
157 guards `if not index`, so we keep a falsy variant. -/
inductive Index where
  | nil
  | handle
deriving DecidableEq, Repr

/-- The external world: configuration plus the behaviour of the two
external services.  `initPinecone` embeds the whole `inicializar_pinecone`
call (configuration check, client construction, reachability probe);
`describeStats` embeds `index.describe_index_stats()` in
`listar_todos_documentos`, yielding the `total_vector_count` entry (absent
entry = `none`, `stats.get` then defaults to 0). -/
structure World where
  gemini_embedding_model : String
  embed : EmbedRequest → Except PyErr EmbedResp
  initPinecone : Except PyErr Index
  describeStats : Except PyErr (Option Nat)
  query : QueryRequest → Except PyErr QueryResp
  upsert : UpsertRequest → Except PyErr Unit
  now_ms : Nat

/-- Python whitespace characters stripped by `str.strip()` (ASCII range). -/
def pyIsSpace (c : Char) : Bool :=
  c == ' ' || c == '\t' || c == '\n' || c == '\r' || c == '\x0b' || c == '\x0c'

/-- Strip leading and trailing whitespace from a character list. -/
def stripList (l : List Char) : List Char :=
  ((l.dropWhile pyIsSpace).reverse.dropWhile pyIsSpace).reverse

/-- Python `s.strip()`. -/
def pyStrip (s : String) : String := ⟨stripList s.data⟩

/-- Python `len(s)` (number of characters). -/
def pyLen (s : String) : Nat := s.data.length

/-- Python `s[:n]` (first `n` characters). -/
def pyTake (s : String) (n : Nat) : String := ⟨s.data.take n⟩

/-- Lower-case one character, covering ASCII and the Latin-1 uppercase
letters (the accented range used by Portuguese text), as Python
`str.lower()` does on such input. -/
def pyLowerChar (c : Char) : Char :=
  let n := c.toNat
  if 65 ≤ n && n ≤ 90 then Char.ofNat (n + 32)
  else if 192 ≤ n && n ≤ 222 && n != 215 then Char.ofNat (n + 32)
  else c

/-- Python `s.lower()`. -/
def pyLower (s : String) : String := ⟨s.data.map pyLowerChar⟩

/-- Whether `pat` is a prefix of `l`. -/
def isPrefixList : List Char → List Char → Bool
  | [], _ => true
  | _ :: _, [] => false
  | a :: as, b :: bs => a == b && isPrefixList as bs

/-- Whether `pat` occurs as a contiguous sublist of `hay`. -/
def containsList (hay pat : List Char) : Bool :=
  match hay with
  | [] => pat.isEmpty
  | _ :: t => isPrefixList pat hay || containsList t pat

/-- Python `pat in s` for strings. -/
def strContains (s pat : String) : Bool :=
  containsList s.data pat.data

/-- The fixed monetary vocabulary of line 131. -/
def termosValor : List String :=
  ["valor", "preço", "custo", "aluguel", "taxa", "multa", "reais", "r$", "pagamento"]

/-- The fixed person-name vocabulary of line 132. -/
def nomesPessoa : List String :=
  ["eduardo", "rocha", "fontenele", "gabriela", "bruno", "ana"]

/-- Line 131: `any(termo in query_processada.lower() for termo in [...])`. -/
def consultaSobreValor (q : String) : Bool :=
  termosValor.any (fun t => strContains (pyLower q) t)

/-- Line 132: `any(nome in query_processada.lower() for nome in [...])`. -/
def consultaSobrePessoa (q : String) : Bool :=
  nomesPessoa.any (fun t => strContains (pyLower q) t)

/-- The monetary enrichment suffix appended at line 136. -/
def sufixoValor : String := " valor aluguel preço pagamento R$"

/-- The person enrichment suffix appended at line 139. -/
def sufixoPessoa : String := " nome cpf rg identificação contratante locatário inquilino"

/-- Lines 130-140: category detection and enrichment of the (already
trimmed and truncated) query. -/
def enriquecer (q : String) : String :=
  if consultaSobreValor q then q ++ sufixoValor
  else if consultaSobrePessoa q then q ++ sufixoPessoa
  else q

/-- Lines 125-128: trim, then truncate to 1000 characters. -/
def consultaTruncada (q : String) : String :=
  if pyLen (pyStrip q) > 1000 then pyTake (pyStrip q) 1000 else pyStrip q

/-- The full preprocessing pipeline of `buscar_documentos` (lines 125-140):
trim, truncate, enrich. -/
def queryProcessada (q : String) : String :=
  enriquecer (consultaTruncada q)

/-- The embedding request `buscar_documentos` builds at lines 145-148. -/
def mkQueryEmbedRequest (w : World) (q : String) : EmbedRequest :=
  { model := w.gemini_embedding_model
    content := [queryProcessada q]
    task_type := "RETRIEVAL_QUERY" }

/-- `response['embedding'][0]`: raises a `KeyError` when the entry is
absent and an `IndexError` on an empty list. -/
def embedExtract (r : EmbedResp) : Except PyErr (List ℚ) :=
  match r.embedding with
  | none => .error (.otherError "KeyError: embedding")
  | some [] => .error (.otherError "list index out of range")
  | some (v :: _) => .ok v

/-- Python `float(score)` at line 192: raises on a non-numeric value. -/
def pyFloat : Score → Except PyErr ℚ
  | .num q => .ok q
  | .nonNumeric => .error (.otherError "could not convert to float")

/-- Line 192: `float(match.score) if hasattr(match, 'score') else 0.0`. -/
def scoreDoc (s : Option Score) : Except PyErr ℚ :=
  match s with
  | some v => pyFloat v
  | none => .ok 0

/-- Lines 199-209: an extra metadata field is copied when present and
truthy, else set to the empty list. -/
def extraCampo (md : Metadata) (campo : String) : Val :=
  match mdGet md campo with
  | some v => if v.truthy then v else .strList []
  | none => .strList []

/-- The normalized document record built by `buscar_documentos`
(lines 190-209). -/
structure Doc where
  id : String
  score : ℚ
  arquivo : Val
  texto : Val
  secao : Val
  valores_monetarios : Val
  cpfs : Val
  nomes : Val
deriving DecidableEq, Repr

/-- The body of the per-match loop of `buscar_documentos` (lines 183-219):
`.ok none` embeds a `continue` (no usable metadata, or incomplete
essential fields), `.error` embeds an exception raised while processing
this single match (caught at line 217). -/
def processMatch (m : RawMatch) : Except PyErr (Option Doc) :=
  match m.metadata with
  | none => .ok none
  | some md =>
    if md.isEmpty then .ok none
    else
      match scoreDoc m.score with
      | .error e => .error e
      | .ok sc =>
        let doc : Doc :=
          { id := m.id.getD ""
            score := sc
            arquivo := mdGetD md "arquivo" (.str "")
            texto := mdGetD md "texto" (.str "")
            secao := mdGetD md "secao" (.str "")
            valores_monetarios := extraCampo md "valores_monetarios"
            cpfs := extraCampo md "cpfs"
            nomes := extraCampo md "nomes" }
        if !doc.arquivo.truthy || !doc.texto.truthy then .ok none
        else .ok (some doc)

/-- The result-formatting loop of `buscar_documentos` (lines 181-219): a
match whose processing raises or hits a `continue` is skipped, the rest of
the batch is still processed. -/
def formatMatches : List RawMatch → List Doc
  | [] => []
  | m :: rest =>
    match processMatch m with
    | .ok (some d) => d :: formatMatches rest
    | .ok none => formatMatches rest
    | .error _ => formatMatches rest

/-- Lines 123-222 of `buscar_documentos`: the body of the outer `try`.
Errors are the exceptions that reach the outer handlers: the `ValueError`
wrappers of lines 152 and 178, the `ConnectionError` wrappers of lines
158/161, and (via `badMatches`) an exception escaping from the iteration
over a non-list `matches` attribute at line 182. -/
def buscarBody (w : World) (q : String) (top_k : Nat) :
    Except PyErr (List Doc) × List Call :=
  let req := mkQueryEmbedRequest w q
  match w.embed req with
  | .error e =>
    (.error (.valueError ("Não foi possível gerar embedding para a consulta: " ++ e.msg)),
     [Call.embedCall req])
  | .ok resp =>
    match embedExtract resp with
    | .error e =>
      (.error (.valueError ("Não foi possível gerar embedding para a consulta: " ++ e.msg)),
       [Call.embedCall req])
    | .ok emb =>
      match w.initPinecone with
      | .error e =>
        (.error (.connectionError ("Falha na conexão com o Pinecone: " ++ e.msg)),
         [Call.embedCall req, Call.initCall])
      | .ok Index.nil =>
        (.error (.connectionError
           ("Falha na conexão com o Pinecone: " ++ "Não foi possível conectar ao Pinecone")),
         [Call.embedCall req, Call.initCall])
      | .ok Index.handle =>
        let qreq : QueryRequest := { vector := emb, top_k := top_k, include_metadata := true }
        let tr := [Call.embedCall req, Call.initCall, Call.queryCall qreq]
        match w.query qreq with
        | .error e => (.error (.valueError ("Falha na busca vetorial: " ++ e.msg)), tr)
        | .ok QueryResp.nil => (.ok [], tr)
        | .ok QueryResp.noMatchesAttr => (.ok [], tr)
        | .ok QueryResp.badMatches =>
          (.error (.otherError "argument of type NoneType is not iterable"), tr)
        | .ok (QueryResp.withMatches ms) =>
          if ms.isEmpty then (.ok [], tr) else (.ok (formatMatches ms), tr)

/-- `buscar_documentos` (lines 108-232): the blank-query guard of lines
119-121, then the body under the outer handlers of lines 224-232
(`ValueError` and `ConnectionError` re-raised, everything else converted
to an empty-list return). -/
def buscar_documentos (w : World) (q : String) (top_k : Nat) :
    Except PyErr (List Doc) × List Call :=
  if (stripList q.data).isEmpty then (.ok [], [])
  else
    match buscarBody w q top_k with
    | (.ok docs, tr) => (.ok docs, tr)
    | (.error (PyErr.valueError m), tr) => (.error (.valueError m), tr)
    | (.error (PyErr.connectionError m), tr) => (.error (.connectionError m), tr)
    | (.error (PyErr.otherError _), tr) => (.ok [], tr)

/-- `gerar_embedding` (lines 50-73): one `embed_content` call with
`task_type="RETRIEVAL_DOCUMENT"`, first vector of the response taken, any
failure logged and re-raised unchanged. -/
def gerar_embedding (w : World) (texto : String) :
    Except PyErr (List ℚ) × List Call :=
  let req : EmbedRequest :=
    { model := w.gemini_embedding_model
      content := [texto]
      task_type := "RETRIEVAL_DOCUMENT" }
  match w.embed req with
  | .error e => (.error e, [Call.embedCall req])
  | .ok resp =>
    match embedExtract resp with
    | .error e => (.error e, [Call.embedCall req])
    | .ok v => (.ok v, [Call.embedCall req])

/-- `processar_e_indexar_documento` (lines 75-106): embed via
`gerar_embedding`, default the id to the millisecond timestamp, connect if
no index was passed, upsert; every failure is re-raised. -/
def processar_e_indexar_documento (w : World) (texto : String) (metadata : Metadata)
    (id : Option String) (index : Option Index) :
    Except PyErr String × List Call :=
  match gerar_embedding w texto with
  | (.error e, tr) => (.error e, tr)
  | (.ok emb, tr) =>
    let theId := id.getD (toString w.now_ms)
    let ureq : UpsertRequest := { id := theId, vector := emb, metadata := metadata }
    match index with
    | some Index.nil =>
      (.error (.otherError "NoneType object has no attribute upsert"), tr)
    | some Index.handle =>
      match w.upsert ureq with
      | .error e => (.error e, tr ++ [Call.upsertCall ureq])
      | .ok _ => (.ok theId, tr ++ [Call.upsertCall ureq])
    | none =>
      match w.initPinecone with
      | .error e => (.error e, tr ++ [Call.initCall])
      | .ok Index.nil =>
        (.error (.otherError "NoneType object has no attribute upsert"), tr ++ [Call.initCall])
      | .ok Index.handle =>
        match w.upsert ureq with
        | .error e => (.error e, tr ++ [Call.initCall, Call.upsertCall ureq])
        | .ok _ => (.ok theId, tr ++ [Call.initCall, Call.upsertCall ureq])

/-- The per-document record built by `listar_todos_documentos`
(lines 270-274). -/
structure LDoc where
  id : String
  arquivo : Val
  texto : Val
deriving DecidableEq, Repr

/-- One iteration of the listing loop (lines 269-274): `match.id` and
`match.metadata.get` are accessed without guards, so an absent attribute
raises (aborting the whole inner `try`); no completeness filtering is
performed. -/
def processMatchListar (m : RawMatch) : Except PyErr LDoc :=
  match m.id with
  | none => .error (.otherError "object has no attribute id")
  | some i =>
    match m.metadata with
    | none => .error (.otherError "NoneType object has no attribute get")
    | some md =>
      .ok { id := i
            arquivo := mdGetD md "arquivo" (.str "")
            texto := mdGetD md "texto" (.str "") }

/-- The listing loop over all matches: the first raising match aborts the
whole loop (its exception is caught by the inner handler of line 278). -/
def listarLoop : List RawMatch → Except PyErr (List LDoc)
  | [] => .ok []
  | m :: rest =>
    match processMatchListar m with
    | .error e => .error e
    | .ok d =>
      match listarLoop rest with
      | .error e => .error e
      | .ok ds => .ok (d :: ds)

/-- The query request `listar_todos_documentos` builds at lines 258-266:
an all-zero 768-dimensional vector, `top_k = min(limit, 10000)`. -/
def mkListarQueryRequest (limit : Nat) : QueryRequest :=
  { vector := List.replicate 768 0
    top_k := min limit 10000
    include_metadata := true }

/-- `listar_todos_documentos` (lines 234-283).  Outer handler: any failure
up to and including the statistics probe yields `([], 0)`.  When the index
reports 0 vectors, `([], 0)` is returned without querying.  Inner handler:
any failure of the query or of the loop yields `([], total)`.  A falsy
index handle makes the statistics access raise, which the outer handler
turns into `([], 0)`. -/
def listar_todos_documentos (w : World) (limit : Nat) :
    (List LDoc × Nat) × List Call :=
  match w.initPinecone with
  | .error _ => (([], 0), [Call.initCall])
  | .ok Index.nil => (([], 0), [Call.initCall])
  | .ok Index.handle =>
    match w.describeStats with
    | .error _ => (([], 0), [Call.initCall, Call.statsCall])
    | .ok o =>
      let total := o.getD 0
      if total == 0 then (([], 0), [Call.initCall, Call.statsCall])
      else
        let qreq := mkListarQueryRequest limit
        let tr := [Call.initCall, Call.statsCall, Call.queryCall qreq]
        match w.query qreq with
        | .error _ => (([], total), tr)
        | .ok QueryResp.nil => (([], total), tr)
        | .ok QueryResp.noMatchesAttr => (([], total), tr)
        | .ok QueryResp.badMatches => (([], total), tr)
        | .ok (QueryResp.withMatches ms) =>
          match listarLoop ms with
          | .error _ => (([], total), tr)
          | .ok docs => ((docs, total), tr)


def matchBom1 : RawMatch :=
  { id := some "doc1", score := some (.num 1)
    metadata := some [("arquivo", .str "contrato1.pdf"), ("texto", .str "clausula um")] }
def matchBom2 : RawMatch :=
  { id := some "doc3", score := some (.num 2)
    metadata := some [("arquivo", .str "contrato2.pdf"), ("texto", .str "clausula dois")] }
def matchSemMetadata : RawMatch :=
  { id := some "doc2", score := some (.num 1), metadata := none }
def matchSemArquivo : RawMatch :=
  { id := some "doc4", score := some (.num 1), metadata := some [("secao", .str "s1")] }
def matchSemId : RawMatch :=
  { id := none, score := some (.num 1)
    metadata := some [("arquivo", .str "contrato3.pdf"), ("texto", .str "clausula tres")] }
def wBase : World :=
  { gemini_embedding_model := "models/embedding-001"
    embed := fun _ => .ok ⟨some [[1]]⟩
    initPinecone := .ok .handle
    describeStats := .ok (some 3)
    query := fun _ => .ok (.withMatches [])
    upsert := fun _ => .ok ()
    now_ms := 1717171717 }
def wQueryFalha : World := { wBase with query := fun _ => .error (.otherError "boom") }
def wEmbedFalha : World := { wBase with embed := fun _ => .error (.otherError "boom") }
def wBadMatches : World := { wBase with query := fun _ => .ok .badMatches }
def wInitFalha : World := { wBase with initPinecone := .error (.otherError "down") }
def wIndiceVazio : World := { wBase with describeStats := .ok (some 0) }
def wListarIncompleto : World :=
  { wBase with describeStats := .ok (some 1)
               query := fun _ => .ok (.withMatches [matchSemArquivo]) }
def wListarSemId : World :=
  { wBase with query := fun _ => .ok (.withMatches [matchSemId]) }
def wComDocs : World := { wBase with query := fun _ => .ok (.withMatches [matchBom1]) }

/-- C7: a query that is empty or whitespace-only makes `buscar_documentos`
return an empty list immediately, raising nothing and issuing no external
call. -/
def docBom1 : Doc :=
  { id := "doc1", score := 1
    arquivo := .str "contrato1.pdf", texto := .str "clausula um", secao := .str ""
    valores_monetarios := .strList [], cpfs := .strList [], nomes := .strList [] }
def docBom2 : Doc :=
  { id := "doc3", score := 2
    arquivo := .str "contrato2.pdf", texto := .str "clausula dois", secao := .str ""
    valores_monetarios := .strList [], cpfs := .strList [], nomes := .strList [] }

/-- C1 (amended): every record returned by `buscar_documentos` has a
non-empty (truthy) `arquivo` and `texto` — incomplete records are dropped
by the normalization loop.  The listing operation gives no such guarantee
(see the counterexample). -/
def bigQ : String := ⟨List.replicate 1001 'a'⟩

/-- C4: for a query whose trimmed form exceeds 1000 characters, the text
handed to the query-embedding call is exactly the first 1000 characters
of the trimmed query, possibly followed by one enrichment suffix, and
enrichment matching is evaluated on the truncated text. -/

theorem formatMatches_append (a b : List RawMatch) :
    formatMatches (a ++ b) = formatMatches a ++ formatMatches b := by
  induction a with
  | nil => rfl
  | cons m rest ih =>
    cases h : processMatch m with
    | error e => simp [formatMatches, h, ih]
    | ok o => cases o <;> simp [formatMatches, h, ih]

theorem processMatch_truthy (m : RawMatch) (d : Doc) (h : processMatch m = .ok (some d)) :
    d.arquivo.truthy = true ∧ d.texto.truthy = true := by
  unfold processMatch at h
  split at h
  · simp at h
  · split at h
    · simp at h
    · split at h
      · simp at h
      · dsimp only [] at h
        split at h
        · simp at h
        · simp at h
          subst h
          simp_all


theorem formatMatches_truthy (ms : List RawMatch) (d : Doc) (hd : d ∈ formatMatches ms) :
    d.arquivo.truthy = true ∧ d.texto.truthy = true := by
  induction ms with
  | nil => simp [formatMatches] at hd
  | cons m rest ih =>
    cases h : processMatch m with
    | error e => rw [formatMatches, h] at hd; exact ih hd
    | ok o =>
      cases o with
      | none => rw [formatMatches, h] at hd; exact ih hd
      | some d' =>
        rw [formatMatches, h] at hd
        rcases List.mem_cons.mp hd with h1 | h2
        · subst h1; exact processMatch_truthy m d h
        · exact ih h2

theorem formatMatches_skip (m : RawMatch)
    (hm : (∃ e, processMatch m = .error e) ∨ processMatch m = .ok none)
    (ms1 ms2 : List RawMatch) :
    formatMatches (ms1 ++ m :: ms2) = formatMatches ms1 ++ formatMatches ms2 := by
  rw [formatMatches_append]
  rcases hm with ⟨e, he⟩ | he <;> rw [formatMatches, he]

theorem buscarBody_trace (w : World) (q : String) (k : Nat) :
    ∃ rest, (buscarBody w q k).2 = Call.embedCall (mkQueryEmbedRequest w q) :: rest ∧
      ∀ r, Call.embedCall r ∉ rest := by
  unfold buscarBody
  dsimp only []
  rcases he : w.embed (mkQueryEmbedRequest w q) with e | resp
  · exact ⟨[], rfl, by simp⟩
  · dsimp only []
    rcases hx : embedExtract resp with e | emb
    · exact ⟨[], rfl, by simp⟩
    · dsimp only []
      rcases hi : w.initPinecone with e | i
      · exact ⟨[Call.initCall], rfl, by simp⟩
      · cases i with
        | nil => exact ⟨[Call.initCall], rfl, by simp⟩
        | handle =>
          dsimp only []
          rcases hq : w.query ⟨emb, k, true⟩ with e | resp2
          · exact ⟨[Call.initCall, Call.queryCall ⟨emb, k, true⟩], rfl, by simp⟩
          · cases resp2 with
            | nil => exact ⟨[Call.initCall, Call.queryCall ⟨emb, k, true⟩], rfl, by simp⟩
            | noMatchesAttr => exact ⟨[Call.initCall, Call.queryCall ⟨emb, k, true⟩], rfl, by simp⟩
            | badMatches => exact ⟨[Call.initCall, Call.queryCall ⟨emb, k, true⟩], rfl, by simp⟩
            | withMatches ms =>
              cases hms : ms.isEmpty <;>
                exact ⟨[Call.initCall, Call.queryCall ⟨emb, k, true⟩],
                  by dsimp only []; simp [hms], by simp⟩


theorem gerar_trace (w : World) (texto : String) :
    (gerar_embedding w texto).2 =
      [Call.embedCall { model := w.gemini_embedding_model
                        content := [texto]
                        task_type := "RETRIEVAL_DOCUMENT" }] := by
  unfold gerar_embedding
  dsimp only []
  rcases he : w.embed { model := w.gemini_embedding_model
                        content := [texto]
                        task_type := "RETRIEVAL_DOCUMENT" } with e | resp
  · rfl
  · dsimp only []
    rcases hx : embedExtract resp with e | v <;> rfl

theorem buscar_trace_nonblank (w : World) (q : String) (k : Nat)
    (h : (stripList q.data).isEmpty = false) :
    (buscar_documentos w q k).2 = (buscarBody w q k).2 := by
  unfold buscar_documentos
  rw [h]
  rw [if_neg Bool.false_ne_true]
  rcases hb : buscarBody w q k with ⟨res, tr⟩
  rcases res with err | docs
  · cases err <;> rfl
  · rfl

theorem buscarBody_ok_shape (w : World) (q : String) (k : Nat) (docs : List Doc)
    (h : (buscarBody w q k).1 = .ok docs) :
    docs = [] ∨ ∃ ms, docs = formatMatches ms := by
  unfold buscarBody at h
  dsimp only [] at h
  rcases he : w.embed (mkQueryEmbedRequest w q) with e | resp
  · rw [he] at h; simp at h
  · rw [he] at h
    dsimp only [] at h
    rcases hx : embedExtract resp with e | emb
    · rw [hx] at h; simp at h
    · rw [hx] at h
      dsimp only [] at h
      rcases hi : w.initPinecone with e | i
      · rw [hi] at h; simp at h
      · rw [hi] at h
        cases i with
        | nil => simp at h
        | handle =>
          dsimp only [] at h
          rcases hq : w.query ⟨emb, k, true⟩ with e | resp2
          · rw [hq] at h; simp at h
          · rw [hq] at h
            cases resp2 with
            | nil => simp at h; exact Or.inl h
            | noMatchesAttr => simp at h; exact Or.inl h
            | badMatches => simp at h
            | withMatches ms =>
              dsimp only [] at h
              cases hms : ms.isEmpty
              · rw [hms] at h; simp at h; exact Or.inr ⟨ms, h.symm⟩
              · rw [hms] at h; simp at h; exact Or.inl h


theorem buscar_eq_handler (w : World) (q : String) (k : Nat)
    (hq : (stripList q.data).isEmpty = false) :
    buscar_documentos w q k =
      (match (buscarBody w q k).1 with
       | .ok docs => .ok docs
       | .error (.valueError m) => .error (.valueError m)
       | .error (.connectionError m) => .error (.connectionError m)
       | .error (.otherError _) => .ok []
       , (buscarBody w q k).2) := by
  unfold buscar_documentos
  rw [hq, if_neg Bool.false_ne_true]
  rcases hb : buscarBody w q k with ⟨res, tr⟩
  rcases res with err | docs
  · cases err <;> rfl
  · rfl

theorem buscar_embedCall (w : World) (q : String) (k : Nat) (r : EmbedRequest)
    (h : Call.embedCall r ∈ (buscar_documentos w q k).2) :
    r = mkQueryEmbedRequest w q := by
  cases hb : (stripList q.data).isEmpty
  · rw [buscar_trace_nonblank w q k hb] at h
    obtain ⟨rest, htr, hnone⟩ := buscarBody_trace w q k
    rw [htr] at h
    rcases List.mem_cons.mp h with h1 | h2
    · exact Call.embedCall.inj h1
    · exact absurd h2 (hnone r)
  · unfold buscar_documentos at h
    rw [hb] at h
    simp at h


theorem buscar_consulta_vazia (w : World) (q : String) (k : Nat)
    (h : stripList q.data = []) :
    buscar_documentos w q k = (.ok [], []) := by
  unfold buscar_documentos
  rw [h]
  rfl

/-- Witness for C7 at the whitespace query. -/
theorem buscar_consulta_vazia_witness :
    stripList ("   ").data = [] ∧ buscar_documentos wBase "   " 5 = (.ok [], []) :=
  ⟨by decide, buscar_consulta_vazia wBase "   " 5 (by decide)⟩

/-- C2 (amended): a failing vector-store query in `buscar_documentos` is
surfaced as a `ValueError` whose message starts with the search-specific
prefix; this is the same exception kind as the validation errors of the
embedding step, and distinct only from the connection-kind error. -/
theorem busca_falha_query_valueError (w : World) (q : String) (k : Nat)
    (e : PyErr) (emb : List ℚ)
    (hq : (stripList q.data).isEmpty = false)
    (hembed : w.embed (mkQueryEmbedRequest w q) = .ok ⟨some [emb]⟩)
    (hinit : w.initPinecone = .ok .handle)
    (hquery : ∀ r, w.query r = .error e) :
    (buscar_documentos w q k).1 =
      .error (.valueError ("Falha na busca vetorial: " ++ e.msg)) ∧
    ∀ m, PyErr.valueError ("Falha na busca vetorial: " ++ e.msg) ≠
      PyErr.connectionError m := by
  have hbody : (buscarBody w q k).1 =
      .error (.valueError ("Falha na busca vetorial: " ++ e.msg)) := by
    unfold buscarBody
    dsimp only []
    rw [hembed]
    dsimp only [embedExtract]
    rw [hinit]
    dsimp only []
    rw [hquery { vector := emb, top_k := k, include_metadata := true }]
  constructor
  · rw [buscar_eq_handler w q k hq]
    dsimp only []
    rw [hbody]
  · intro m hcontra
    exact PyErr.noConfusion hcontra

/-- Witness for the amended C2 at a concrete failing world. -/
theorem busca_falha_query_valueError_witness :
    (stripList ("contrato").data).isEmpty = false ∧
    (buscar_documentos wQueryFalha "contrato" 5).1 =
      .error (.valueError "Falha na busca vetorial: boom") :=
  ⟨by decide,
   (busca_falha_query_valueError wQueryFalha "contrato" 5 (.otherError "boom") [1]
     (by decide) rfl rfl (fun _ => rfl)).1⟩

/-- Counterexample to C2 as stated: the query-step failure and the
embedding-step failure both reach the caller as the same `ValueError`
kind, so the search failure is not surfaced as an error kind distinct
from the validation one. -/
theorem busca_falha_query_mesma_kind_cex :
    (buscar_documentos wQueryFalha "contrato" 5).1 =
      .error (.valueError "Falha na busca vetorial: boom") ∧
    (buscar_documentos wEmbedFalha "contrato" 5).1 =
      .error (.valueError "Não foi possível gerar embedding para a consulta: boom") := by
  constructor <;> decide


/-- C3: in `buscar_documentos`, a body failure that is neither the
`ValueError` nor the `ConnectionError` raised by steps 4-6 is caught at
the top level and converted to a successful empty-list return, while
`ValueError` and `ConnectionError` are re-raised; consequently every error
surfaced by the operation is of one of those two kinds. -/
theorem buscar_trata_erros_topo (w : World) (q : String) (k : Nat)
    (hq : (stripList q.data).isEmpty = false) :
    (∀ m tr, buscarBody w q k = (.error (.otherError m), tr) →
       buscar_documentos w q k = (.ok [], tr)) ∧
    (∀ m tr, buscarBody w q k = (.error (.valueError m), tr) →
       buscar_documentos w q k = (.error (.valueError m), tr)) ∧
    (∀ m tr, buscarBody w q k = (.error (.connectionError m), tr) →
       buscar_documentos w q k = (.error (.connectionError m), tr)) ∧
    (∀ e tr, buscar_documentos w q k = (.error e, tr) →
       (∃ m, e = .valueError m) ∨ (∃ m, e = .connectionError m)) := by
  refine ⟨?_, ?_, ?_, ?_⟩
  · intro m tr hb
    rw [buscar_eq_handler w q k hq, hb]
  · intro m tr hb
    rw [buscar_eq_handler w q k hq, hb]
  · intro m tr hb
    rw [buscar_eq_handler w q k hq, hb]
  · intro e tr hb
    rw [buscar_eq_handler w q k hq] at hb
    rcases hres : (buscarBody w q k).1 with err | docs
    · rw [hres] at hb
      cases err with
      | valueError m => simp at hb; exact Or.inl ⟨m, hb.1.symm⟩
      | connectionError m => simp at hb; exact Or.inr ⟨m, hb.1.symm⟩
      | otherError m => simp at hb
    · rw [hres] at hb
      simp at hb

/-- Witness for C3 at a world whose query response has a non-iterable
`matches` attribute: the body fails with a generic exception and the
operation downgrades it to an empty successful result. -/
theorem buscar_trata_erros_topo_witness :
    (stripList ("contrato").data).isEmpty = false ∧
    buscar_documentos wBadMatches "contrato" 5 =
      (.ok [], [Call.embedCall (mkQueryEmbedRequest wBadMatches "contrato"),
                Call.initCall,
                Call.queryCall { vector := [1], top_k := 5, include_metadata := true }]) :=
  ⟨by decide,
   (buscar_trata_erros_topo wBadMatches "contrato" 5 (by decide)).1
     "argument of type NoneType is not iterable"
     [Call.embedCall (mkQueryEmbedRequest wBadMatches "contrato"),
      Call.initCall,
      Call.queryCall { vector := [1], top_k := 5, include_metadata := true }]
     (by decide)⟩


theorem buscar_docs_completos (w : World) (q : String) (k : Nat)
    (docs : List Doc) (d : Doc)
    (hok : (buscar_documentos w q k).1 = .ok docs) (hd : d ∈ docs) :
    d.arquivo.truthy = true ∧ d.texto.truthy = true := by
  cases hb : (stripList q.data).isEmpty
  · rw [buscar_eq_handler w q k hb] at hok
    rcases hres : (buscarBody w q k).1 with err | docs2
    · rw [hres] at hok
      cases err with
      | valueError m => simp at hok
      | connectionError m => simp at hok
      | otherError m =>
        simp at hok
        subst hok
        simp at hd
    · rw [hres] at hok
      simp at hok
      subst hok
      rcases buscarBody_ok_shape w q k docs2 hres with h0 | ⟨ms, hms⟩
      · subst h0
        simp at hd
      · subst hms
        exact formatMatches_truthy ms d hd
  · unfold buscar_documentos at hok
    rw [hb] at hok
    simp at hok
    subst hok
    simp at hd

/-- Counterexample to C1 as stated: `listar_todos_documentos` surfaces a
record whose `arquivo` and `texto` are both empty, because the listing
loop copies metadata fields with empty-string defaults and never filters
incomplete records. -/
theorem listar_doc_incompleto_cex :
    ((listar_todos_documentos wListarIncompleto 100).1).1 =
      [{ id := "doc4", arquivo := .str "", texto := .str "" }] ∧
    ∃ d ∈ ((listar_todos_documentos wListarIncompleto 100).1).1,
      d.arquivo.truthy = false ∧ d.texto.truthy = false := by
  constructor <;> decide

/-- Witness for the amended C1 at a concrete world returning one match. -/
theorem buscar_docs_completos_witness :
    (buscar_documentos wComDocs "contrato" 5).1 = .ok [docBom1] ∧
    docBom1 ∈ [docBom1] ∧
    docBom1.arquivo.truthy = true ∧ docBom1.texto.truthy = true :=
  ⟨by decide, by decide,
   buscar_docs_completos wComDocs "contrato" 5 [docBom1] docBom1 (by decide) (by decide)⟩

/-- C8: a match whose processing raises, or that lacks usable metadata, is
skipped on its own — the rest of the batch is still normalized; in
particular, of 3 matches where exactly one lacks metadata and the other
two are complete, exactly 2 records are returned. -/
theorem normalizacao_pula_match :
    (∀ ms1 (m : RawMatch) ms2,
       ((∃ e, processMatch m = .error e) ∨ processMatch m = .ok none) →
       formatMatches (ms1 ++ m :: ms2) = formatMatches ms1 ++ formatMatches ms2) ∧
    formatMatches [matchBom1, matchSemMetadata, matchBom2] = [docBom1, docBom2] ∧
    (formatMatches [matchBom1, matchSemMetadata, matchBom2]).length = 2 := by
  refine ⟨fun ms1 m ms2 hm => formatMatches_skip m hm ms1 ms2, by decide, by decide⟩

/-- Witness for C8: skipping the metadata-less match in a concrete
3-match batch. -/
theorem normalizacao_pula_match_witness :
    formatMatches ([matchBom1] ++ matchSemMetadata :: [matchBom2]) =
      formatMatches [matchBom1] ++ formatMatches [matchBom2] :=
  normalizacao_pula_match.1 [matchBom1] matchSemMetadata [matchBom2] (Or.inr (by decide))


theorem buscar_trunca_antes_de_enriquecer (w : World) (q : String) (k : Nat)
    (h : 1000 < pyLen (pyStrip q)) :
    (∃ rest, (buscar_documentos w q k).2 =
        Call.embedCall
          { model := w.gemini_embedding_model
            content := [enriquecer (pyTake (pyStrip q) 1000)]
            task_type := "RETRIEVAL_QUERY" } :: rest) ∧
    (enriquecer (pyTake (pyStrip q) 1000) = pyTake (pyStrip q) 1000 ++ sufixoValor ∨
     enriquecer (pyTake (pyStrip q) 1000) = pyTake (pyStrip q) 1000 ++ sufixoPessoa ∨
     enriquecer (pyTake (pyStrip q) 1000) = pyTake (pyStrip q) 1000) := by
  have hct : consultaTruncada q = pyTake (pyStrip q) 1000 := by
    unfold consultaTruncada
    rw [if_pos h]
  have hnb : (stripList q.data).isEmpty = false := by
    cases hsl : stripList q.data with
    | nil =>
      exfalso
      have h0 : pyLen (pyStrip q) = 0 := by
        unfold pyLen pyStrip
        rw [hsl]
        rfl
      omega
    | cons c t => rfl
  constructor
  · obtain ⟨rest, htr, _⟩ := buscarBody_trace w q k
    have hreq : mkQueryEmbedRequest w q =
        { model := w.gemini_embedding_model
          content := [enriquecer (pyTake (pyStrip q) 1000)]
          task_type := "RETRIEVAL_QUERY" } := by
      unfold mkQueryEmbedRequest queryProcessada
      rw [hct]
    refine ⟨rest, ?_⟩
    rw [buscar_trace_nonblank w q k hnb, htr, hreq]
  · unfold enriquecer
    split
    · exact Or.inl rfl
    · split
      · exact Or.inr (Or.inl rfl)
      · exact Or.inr (Or.inr rfl)

/-- Witness for C4 at a 1001-character query. -/
theorem buscar_trunca_antes_de_enriquecer_witness :
    1000 < pyLen (pyStrip bigQ) ∧
    ((∃ rest, (buscar_documentos wBase bigQ 5).2 =
        Call.embedCall
          { model := wBase.gemini_embedding_model
            content := [enriquecer (pyTake (pyStrip bigQ) 1000)]
            task_type := "RETRIEVAL_QUERY" } :: rest) ∧
     (enriquecer (pyTake (pyStrip bigQ) 1000) = pyTake (pyStrip bigQ) 1000 ++ sufixoValor ∨
      enriquecer (pyTake (pyStrip bigQ) 1000) = pyTake (pyStrip bigQ) 1000 ++ sufixoPessoa ∨
      enriquecer (pyTake (pyStrip bigQ) 1000) = pyTake (pyStrip bigQ) 1000)) :=
  ⟨by decide, buscar_trunca_antes_de_enriquecer wBase bigQ 5 (by decide)⟩

/-- C5: a query whose (trimmed, truncated) text contains a monetary term
is embedded with exactly the monetary suffix appended — monetary wins
even when a person name also occurs, and a single suffix is appended. -/
theorem enriquecimento_monetario (w : World) (q : String) (k : Nat)
    (h : consultaSobreValor (consultaTruncada q) = true) :
    ∃ rest, (buscar_documentos w q k).2 =
        Call.embedCall
          { model := w.gemini_embedding_model
            content := [consultaTruncada q ++ sufixoValor]
            task_type := "RETRIEVAL_QUERY" } :: rest ∧
      ∀ r, Call.embedCall r ∉ rest := by
  have hnb : (stripList q.data).isEmpty = false := by
    cases hsl : stripList q.data with
    | nil =>
      exfalso
      have hps : pyStrip q = ⟨[]⟩ := by
        unfold pyStrip
        rw [hsl]
      have hct : consultaTruncada q = ⟨[]⟩ := by
        unfold consultaTruncada
        rw [hps]
        rfl
      rw [hct] at h
      exact absurd h (by decide)
    | cons c t => rfl
  have hreq : mkQueryEmbedRequest w q =
      { model := w.gemini_embedding_model
        content := [consultaTruncada q ++ sufixoValor]
        task_type := "RETRIEVAL_QUERY" } := by
    unfold mkQueryEmbedRequest queryProcessada enriquecer
    rw [if_pos h]
  obtain ⟨rest, htr, hnone⟩ := buscarBody_trace w q k
  exact ⟨rest, by rw [buscar_trace_nonblank w q k hnb, htr, hreq], hnone⟩

/-- Witness for C5 at a query containing both a monetary term and a
person name. -/
theorem enriquecimento_monetario_witness :
    consultaSobreValor (consultaTruncada "qual o valor do aluguel de eduardo?") = true ∧
    consultaSobrePessoa (consultaTruncada "qual o valor do aluguel de eduardo?") = true ∧
    (∃ rest, (buscar_documentos wBase "qual o valor do aluguel de eduardo?" 5).2 =
        Call.embedCall
          { model := wBase.gemini_embedding_model
            content := [consultaTruncada "qual o valor do aluguel de eduardo?" ++ sufixoValor]
            task_type := "RETRIEVAL_QUERY" } :: rest ∧
      ∀ r, Call.embedCall r ∉ rest) :=
  ⟨by decide, by decide,
   enriquecimento_monetario wBase "qual o valor do aluguel de eduardo?" 5 (by decide)⟩


/-- C6: the purpose tag of every embedding call matches its use and is the
exact request handed to the embedding oracle: `gerar_embedding` (used by
document indexing) issues one call tagged RETRIEVAL_DOCUMENT with the text
unchanged, every embedding call made by `processar_e_indexar_documento`
carries RETRIEVAL_DOCUMENT, and every embedding call made by
`buscar_documentos` carries RETRIEVAL_QUERY. -/
theorem task_type_correto (w : World) (texto q : String) (metadata : Metadata)
    (idArg : Option String) (idx : Option Index) (k : Nat) :
    ((gerar_embedding w texto).2 =
       [Call.embedCall { model := w.gemini_embedding_model
                         content := [texto]
                         task_type := "RETRIEVAL_DOCUMENT" }]) ∧
    (∀ r, Call.embedCall r ∈ (processar_e_indexar_documento w texto metadata idArg idx).2 →
       r.task_type = "RETRIEVAL_DOCUMENT") ∧
    (∀ r, Call.embedCall r ∈ (buscar_documentos w q k).2 →
       r.task_type = "RETRIEVAL_QUERY") := by
  refine ⟨gerar_trace w texto, ?_, ?_⟩
  · intro r hr
    unfold processar_e_indexar_documento at hr
    rcases hg : gerar_embedding w texto with ⟨res, tr⟩
    have htr := gerar_trace w texto
    rw [hg] at hr htr
    simp only [] at htr
    subst htr
    rcases res with e | emb
    · dsimp only [] at hr
      simp at hr
      rw [hr]
    · dsimp only [] at hr
      rcases idx with _ | i
      · rcases hi : w.initPinecone with e | i2
        · rw [hi] at hr; simp at hr; rw [hr]
        · rw [hi] at hr
          cases i2
          · simp at hr; rw [hr]
          · rcases hu : w.upsert _ with e | u
            · rw [hu] at hr; simp at hr; rw [hr]
            · rw [hu] at hr; simp at hr; rw [hr]
      · cases i
        · simp at hr; rw [hr]
        · rcases hu : w.upsert _ with e | u
          · rw [hu] at hr; simp at hr; rw [hr]
          · rw [hu] at hr; simp at hr; rw [hr]
  · intro r hr
    rw [buscar_embedCall w q k r hr]
    rfl


/-- Witness for C6 at concrete texts and world. -/
theorem task_type_correto_witness :
    ((gerar_embedding wBase "contrato teste").2 =
       [Call.embedCall { model := wBase.gemini_embedding_model
                         content := ["contrato teste"]
                         task_type := "RETRIEVAL_DOCUMENT" }]) ∧
    ({ model := wBase.gemini_embedding_model
       content := ["contrato teste"]
       task_type := "RETRIEVAL_DOCUMENT" : EmbedRequest }).task_type = "RETRIEVAL_DOCUMENT" ∧
    (mkQueryEmbedRequest wBase "qual o valor?").task_type = "RETRIEVAL_QUERY" :=
  ⟨(task_type_correto wBase "contrato teste" "qual o valor?" [] none none 5).1,
   (task_type_correto wBase "contrato teste" "qual o valor?" [] none none 5).2.1
     { model := wBase.gemini_embedding_model
       content := ["contrato teste"]
       task_type := "RETRIEVAL_DOCUMENT" } (by decide),
   (task_type_correto wBase "contrato teste" "qual o valor?" [] none none 5).2.2
     (mkQueryEmbedRequest wBase "qual o valor?") (by decide)⟩

theorem listar_queryCall (w : World) (limit : Nat) (r : QueryRequest)
    (h : Call.queryCall r ∈ (listar_todos_documentos w limit).2) :
    r = mkListarQueryRequest limit := by
  unfold listar_todos_documentos at h
  rcases hi : w.initPinecone with e | i
  · rw [hi] at h; simp at h
  · rw [hi] at h
    cases i with
    | nil => simp at h
    | handle =>
      dsimp only [] at h
      rcases hs : w.describeStats with e | o
      · rw [hs] at h; simp at h
      · rw [hs] at h
        dsimp only [] at h
        cases hT : o.getD 0 == 0 with
        | true => rw [hT] at h; simp at h
        | false =>
          rw [hT] at h
          rcases hq : w.query (mkListarQueryRequest limit) with e | resp
          · rw [hq] at h; simp at h; exact h
          · rw [hq] at h
            cases resp with
            | nil => simp at h; exact h
            | noMatchesAttr => simp at h; exact h
            | badMatches => simp at h; exact h
            | withMatches ms =>
              rw [if_neg Bool.false_ne_true] at h
              dsimp only [] at h
              rcases hl : listarLoop ms with e | ds
              · rw [hl] at h; simp at h; exact h
              · rw [hl] at h; simp at h; exact h


/-- C9: every vector-store query issued by `listar_todos_documentos` asks
for `top_k = min(limit, 10000)` with an all-zero 768-dimensional query
vector; in particular `limit = 50` requests `top_k = 50`. -/
theorem listar_top_k_vetor_zero (w : World) (limit : Nat) (r : QueryRequest)
    (h : Call.queryCall r ∈ (listar_todos_documentos w limit).2) :
    r.top_k = min limit 10000 ∧ r.vector = List.replicate 768 0 ∧
    (limit = 50 → r.top_k = 50) := by
  rw [listar_queryCall w limit r h]
  refine ⟨rfl, rfl, ?_⟩
  intro h50
  subst h50
  rfl

/-- Witness for C9 at limit 50. -/
theorem listar_top_k_vetor_zero_witness :
    Call.queryCall (mkListarQueryRequest 50) ∈ (listar_todos_documentos wBase 50).2 ∧
    (mkListarQueryRequest 50).top_k = 50 ∧
    (mkListarQueryRequest 50).vector = List.replicate 768 0 :=
  ⟨by decide,
   (listar_top_k_vetor_zero wBase 50 (mkListarQueryRequest 50) (by decide)).2.2 rfl,
   (listar_top_k_vetor_zero wBase 50 (mkListarQueryRequest 50) (by decide)).2.1⟩

/-- C10: `listar_todos_documentos` never propagates a failure: a failing
connection yields `([], 0)`; a reported total of 0 yields `([], 0)` with
no query issued; and a failure of the query or of per-match processing
after statistics were obtained yields `([], total)`. -/
theorem listar_nunca_propaga (w : World) (limit : Nat) :
    (∀ e, w.initPinecone = .error e →
       (listar_todos_documentos w limit).1 = ([], 0)) ∧
    (∀ o, w.initPinecone = .ok .handle → w.describeStats = .ok o → o.getD 0 = 0 →
       (listar_todos_documentos w limit).1 = ([], 0) ∧
       ∀ r, Call.queryCall r ∉ (listar_todos_documentos w limit).2) ∧
    (∀ o n e, w.initPinecone = .ok .handle → w.describeStats = .ok o →
       o.getD 0 = n → n ≠ 0 → (∀ r, w.query r = .error e) →
       (listar_todos_documentos w limit).1 = ([], n)) ∧
    (∀ o n ms e, w.initPinecone = .ok .handle → w.describeStats = .ok o →
       o.getD 0 = n → n ≠ 0 → (∀ r, w.query r = .ok (.withMatches ms)) →
       listarLoop ms = .error e →
       (listar_todos_documentos w limit).1 = ([], n)) := by
  refine ⟨?_, ?_, ?_, ?_⟩
  · intro e hi
    unfold listar_todos_documentos
    rw [hi]
  · intro o hi hs h0
    constructor
    · unfold listar_todos_documentos
      rw [hi]
      dsimp only []
      rw [hs]
      dsimp only []
      rw [h0]
      simp
    · intro r hmem
      unfold listar_todos_documentos at hmem
      rw [hi] at hmem
      dsimp only [] at hmem
      rw [hs] at hmem
      dsimp only [] at hmem
      rw [h0] at hmem
      simp at hmem
  · intro o n e hi hs hn hne hq
    unfold listar_todos_documentos
    rw [hi]
    dsimp only []
    rw [hs]
    dsimp only []
    rw [hn]
    rw [if_neg (by simpa using hne)]
    rw [hq (mkListarQueryRequest limit)]
  · intro o n ms e hi hs hn hne hq hl
    unfold listar_todos_documentos
    rw [hi]
    dsimp only []
    rw [hs]
    dsimp only []
    rw [hn]
    rw [if_neg (by simpa using hne)]
    rw [hq (mkListarQueryRequest limit)]
    dsimp only []
    rw [hl]

/-- Witness for C10 at four concrete worlds: failing connection, empty
index, failing query, and a match that raises during processing. -/
theorem listar_nunca_propaga_witness :
    (listar_todos_documentos wInitFalha 100).1 = ([], 0) ∧
    ((listar_todos_documentos wIndiceVazio 100).1 = ([], 0) ∧
      ∀ r, Call.queryCall r ∉ (listar_todos_documentos wIndiceVazio 100).2) ∧
    (listar_todos_documentos wQueryFalha 100).1 = ([], 3) ∧
    (listar_todos_documentos wListarSemId 100).1 = ([], 3) :=
  ⟨(listar_nunca_propaga wInitFalha 100).1 (.otherError "down") rfl,
   (listar_nunca_propaga wIndiceVazio 100).2.1 (some 0) rfl rfl rfl,
   (listar_nunca_propaga wQueryFalha 100).2.2.1 (some 3) 3 (.otherError "boom")
     rfl rfl rfl (by decide) (fun _ => rfl),
   (listar_nunca_propaga wListarSemId 100).2.2.2 (some 3) 3 [matchSemId]
     (.otherError "object has no attribute id")
     rfl rfl rfl (by decide) (fun _ => rfl) (by decide)⟩

end ProjetoIA
